import Mathlib

/-!
Shallow embedding of qexpy/plotting.py (the plot composition and dual-backend
rendering engine) and verification of the specification claims about it.

Numeric values are modelled as rationals, Python lists as Lean lists, the
process-wide propagation flag `qe.Measurement.minmax_n` as an explicit state
record threaded through the operations, and fallible Python code
(IndexError, UnboundLocalError, AttributeError) as `Except`.
-/

/-- The global state of the uncertainty-propagation collaborator: the
process-wide flag `qe.Measurement.minmax_n` that `plotting.py` saves, sets
to 1, and restores around every propagated evaluation. -/
structure GState where
  minmax_n : ℤ
  deriving DecidableEq

/-- Python exceptions that the embedded code can raise. -/
inductive PyErr
  | indexError
  | unboundLocal
  | attributeError
  deriving DecidableEq

/-- A user-supplied Python callable.  Called as `f(grid)` or `f(grid, *pars)`
with plain numeric parameters it returns a numeric array (`evalPlain`, with
`[]` for the no-parameter call); called with a `Measurement_Array` it returns
an uncertain curve of (mean, std) samples, whose value may depend on the
global propagation flag in effect at call time (`evalUnc`'s first argument). -/
structure PyFunc where
  evalPlain : List ℚ → List ℚ → List ℚ
  evalUnc : ℤ → List ℚ → List (ℚ × ℚ) → List (ℚ × ℚ)

/-- One fit record of a dataset, as exposed by the external fitting
collaborator: the fitted function handle, the fitted-parameter vector with
(mean, std) per parameter, the (0,1) entry of the parameter correlation
matrix, and the extent of the residual vector (used for the residual range). -/
structure FitRec where
  func : PyFunc
  pars : List (ℚ × ℚ)
  corr : ℚ
  resmin : ℚ
  resmax : ℚ

/-- An XYDataSet, referenced by identity by the Plot.  Only the interface
used by plotting.py is modelled: paired data arrays with uncertainties,
label bookkeeping, the histogram flag and the stack of fit records. -/
structure DataSet where
  xdata : List ℚ
  ydata : List ℚ
  xerr : List ℚ
  yerr : List ℚ
  xname : String
  xunits : String
  yname : String
  yunits : String
  name : String
  is_histogram : Bool
  fits : List FitRec

instance : Inhabited DataSet :=
  ⟨{ xdata := [], ydata := [], xerr := [], yerr := [], xname := "x", xunits := "",
     yname := "y", yunits := "", name := "", is_histogram := false, fits := [] }⟩

/-- `dataset.nfits`: the number of fits performed on the dataset. -/
def DataSet.nfits (d : DataSet) : ℕ := d.fits.length

/-- Number of parameters of the most recent fit, `dataset.fit_npars[-1]`. -/
def nparsLast (d : DataSet) : ℕ := ((d.fits.getLast?).map (fun fr => fr.pars.length)).getD 0

/-- Minimum of a numeric array (numpy `min`); 0 on the empty array, which the
source never queries. -/
def listMin : List ℚ → ℚ
  | [] => 0
  | x :: xs => xs.foldl min x

/-- Maximum of a numeric array (numpy `max`); 0 on the empty array. -/
def listMax : List ℚ → ℚ
  | [] => 0
  | x :: xs => xs.foldl max x

/-- Modelled from the spec: `XYDataSet.get_x_range(margin)` lives in the
fitting module, not under src/; per the spec the x range of a dataset is the
x data extent widened by the margin on both sides. -/
def DataSet.get_x_range (d : DataSet) (margin : ℚ) : ℚ × ℚ :=
  (listMin d.xdata - margin, listMax d.xdata + margin)

/-- Modelled from the spec: `XYDataSet.get_y_range(margin)`, the y data
extent widened by the margin on both sides. -/
def DataSet.get_y_range (d : DataSet) (margin : ℚ) : ℚ × ℚ :=
  (listMin d.ydata - margin, listMax d.ydata + margin)

/-- Modelled from the spec: `XYDataSet.get_yres_range(margin)`, the extent of
the most recent fit's residual vector widened by the margin on both sides. -/
def DataSet.get_yres_range (d : DataSet) (margin : ℚ) : ℚ × ℚ :=
  match d.fits.getLast? with
  | some fr => (fr.resmin - margin, fr.resmax + margin)
  | none => (0, 0)

/-- The shape of the `pars` argument accepted by `add_function` and
`mpl_plot_function`: absent (`None`), a plain numeric sequence
(list/ndarray), a `Measurement_Array` of (mean, std) parameters, or any
other (unrecognized) Python value. -/
inductive Pars
  | pnone
  | plain (ps : List ℚ)
  | uncertain (ps : List (ℚ × ℚ))
  | other

/-- `np.linspace(a, b, n)`: n evenly spaced samples from a to b inclusive. -/
def linspace (a b : ℚ) (n : ℕ) : List ℚ :=
  (List.range n).map (fun (i : ℕ) => a + (i : ℚ) * (b - a) / ((n : ℚ) - 1))

/-- Modelled from the spec: the bokeh color palette `Set1_9 + Set2_8` is an
external constant whose contents are out of scope; only its length (9 + 8 =
17 colors) is visible to the plotting logic. -/
def defaultPalette : List String :=
  ["s1c1", "s1c2", "s1c3", "s1c4", "s1c5", "s1c6", "s1c7", "s1c8", "s1c9",
   "s2c1", "s2c2", "s2c3", "s2c4", "s2c5", "s2c6", "s2c7", "s2c8"]

/-- The mutable state of a `Plot` object, with the fields set up by
`Plot.__init__`.  The labels dict is flattened into three fields.
`yres_range` is `none` while the attribute has never been assigned
(Python would raise AttributeError on access). -/
structure Plot where
  color_palette : List String
  color_count : ℕ
  x_range_margin : ℚ
  y_range_margin : ℚ
  dimensions : ℤ × ℤ
  mpl_scaling : ℚ
  user_functions_count : ℕ
  user_functions : List PyFunc
  user_functions_pars : List Pars
  user_functions_names : List String
  user_functions_colors : List String
  save_filename : String
  errorband_sigma : ℚ
  show_residuals : Bool
  show_fit_results : Bool
  fit_results_x_offset : ℚ
  fit_results_y_offset : ℚ
  datasets : List DataSet
  datasets_colors : List String
  xunits : String
  xname : String
  yunits : String
  yname : String
  x_range : ℚ × ℚ
  y_range : ℚ × ℚ
  yres_range : Option (ℚ × ℚ)
  title : String
  initialized_from_dataset : Bool
  labels_title : String
  labels_xtitle : String
  labels_ytitle : String
  linear_fit_pars : Option (List (ℚ × ℚ))
  linear_fit_corr : Option ℚ

/-- The new value of `color_count` computed by `_get_color_from_palette`:
increment, and wrap back to 1 when the count exceeds the palette length. -/
def paletteNext (p : Plot) : ℕ :=
  if p.color_count + 1 > p.color_palette.length then 1 else p.color_count + 1

/-- `Plot._get_color_from_palette`: bump the cursor (with wraparound) and
return the palette entry at the new cursor minus one.  List indexing is
modelled with `getD`; the default is never reached on a nonempty palette
because the wrapped index is always in bounds (proved below). -/
def getColorFromPalette (p : Plot) : String × Plot :=
  (p.color_palette.getD (paletteNext p - 1) "", { p with color_count := paletteNext p })

/-- One step of automatic color assignment: the plot state after a
`_get_color_from_palette` call. -/
def colorStep (p : Plot) : Plot := (getColorFromPalette p).2

/-- `Plot.set_yres_range_from_fits`: walk all datasets and, for each one
that has a fit, overwrite the residual range from it (the last one wins). -/
def set_yres_range_from_fits (p : Plot) : Plot :=
  let yres := p.datasets.foldl
    (fun acc ds => if 0 < ds.nfits then some (ds.get_yres_range p.y_range_margin) else acc)
    p.yres_range
  { p with yres_range := yres }

/-- `Plot.set_range_from_dataset`: overwrite both ranges from the dataset
(margins included) and recompute the residual range. -/
def set_range_from_dataset (p : Plot) (dataset : DataSet) : Plot :=
  set_yres_range_from_fits
    { p with x_range := dataset.get_x_range p.x_range_margin,
             y_range := dataset.get_y_range p.y_range_margin }

/-- `Plot.initialize_from_dataset`: copy labels/units/title from the dataset,
overwrite the ranges from it, and mark the plot as initialized. -/
def initialize_from_dataset (p : Plot) (dataset : DataSet) : Plot :=
  let p1 := { p with
    xunits := dataset.xunits, xname := dataset.xname,
    yunits := dataset.yunits, yname := dataset.yname,
    title := dataset.name,
    labels_title := dataset.name,
    labels_xtitle := dataset.xname ++ " [" ++ dataset.xunits ++ "]",
    labels_ytitle := dataset.yname ++ " [" ++ dataset.yunits ++ "]" }
  { set_range_from_dataset p1 dataset with initialized_from_dataset := true }

/-- `Plot.__init__` (also the body of `MakePlot` for the cases it forwards):
build the default plot state and, when a dataset is supplied, attach it,
assign it a palette color and initialize labels and ranges from it; the
labels dict is (re)built at the end of the constructor either way. -/
def mkPlot (dataset : Option DataSet) : Plot :=
  let p0 : Plot := {
    color_palette := defaultPalette, color_count := 0,
    x_range_margin := 1/2, y_range_margin := 1/2,
    dimensions := (600, 400), mpl_scaling := 17/1000,
    user_functions_count := 0, user_functions := [], user_functions_pars := [],
    user_functions_names := [], user_functions_colors := [],
    save_filename := "myplot.html",
    errorband_sigma := 1, show_residuals := false, show_fit_results := true,
    fit_results_x_offset := 0, fit_results_y_offset := 0,
    datasets := [], datasets_colors := [],
    xunits := "", xname := "x", yunits := "", yname := "y",
    x_range := (0, 1), y_range := (0, 1), yres_range := none,
    title := "y as a function of x", initialized_from_dataset := false,
    labels_title := "", labels_xtitle := "", labels_ytitle := "",
    linear_fit_pars := none, linear_fit_corr := none }
  let p := match dataset with
    | some ds =>
        let p1 := { p0 with datasets := [ds] }
        let cp := getColorFromPalette p1
        let p2 := { cp.2 with datasets_colors := [cp.1] }
        initialize_from_dataset p2 ds
    | none => p0
  { p with labels_title := p.title,
           labels_xtitle := p.xname ++ " [" ++ p.xunits ++ "]",
           labels_ytitle := p.yname ++ " [" ++ p.yunits ++ "]" }

/-- `Plot.add_dataset`: append the dataset; re-initialize labels and ranges
from it when it is the only one attached; assign a palette color when none
is given; rename the last dataset when a name is given; then widen (never
narrow) both ranges to cover the new dataset's margin-expanded box, and
recompute the residual range. -/
def add_dataset (p : Plot) (dataset : DataSet) (color : Option String)
    (name : Option String) : Plot :=
  let p1 := { p with datasets := p.datasets ++ [dataset] }
  let p2 := if p1.datasets.length < 2 then initialize_from_dataset p1 dataset else p1
  let p3 := match color with
    | none =>
        let cp := getColorFromPalette p2
        { cp.2 with datasets_colors := cp.2.datasets_colors ++ [cp.1] }
    | some col => { p2 with datasets_colors := p2.datasets_colors ++ [col] }
  let p4 := match name with
    | some nm => { p3 with datasets := p3.datasets.dropLast ++ [{ dataset with name := nm }] }
    | none => p3
  let x_range := dataset.get_x_range p4.x_range_margin
  let y_range := dataset.get_y_range p4.y_range_margin
  let p5 := { p4 with
    x_range := ((if x_range.1 < p4.x_range.1 then x_range.1 else p4.x_range.1),
                (if x_range.2 > p4.x_range.2 then x_range.2 else p4.x_range.2)),
    y_range := ((if y_range.1 < p4.y_range.1 then y_range.1 else p4.y_range.1),
                (if y_range.2 > p4.y_range.2 then y_range.2 else p4.y_range.2)) }
  set_yres_range_from_fits p5

/-- `Plot.add_residuals`: recompute the residual range, then read
`self.datasets[-1]` (an IndexError when no dataset is attached) and enable
the residual sub-plot only when that last dataset has at least one fit. -/
def add_residuals (p : Plot) : Except PyErr Plot :=
  let p1 := set_yres_range_from_fits p
  match p1.datasets.getLast? with
  | none => Except.error PyErr.indexError
  | some last =>
      Except.ok (if 0 < last.nfits then { p1 with show_residuals := true } else p1)

/-- The sampling grid used by `add_function` to probe the y-extent of a new
user function: `np.linspace(self.x_range[0], self.x_range[1], 100)`. -/
def addTimeGrid (p : Plot) : List ℚ := linspace p.x_range.1 p.x_range.2 100

/-- The `xdata` argument that `populate_mpl_figure` (and the bokeh
counterpart) passes when drawing user functions: the two endpoints
`[x_range[0] + margin, x_range[1] - margin]`. -/
def renderTimeXdata (p : Plot) : List ℚ :=
  [p.x_range.1 + p.x_range_margin, p.x_range.2 - p.x_range_margin]

/-- The grid built inside `mpl_plot_function`:
`np.linspace(min(xdata), max(xdata), n)`. -/
def mplGrid (xdata : List ℚ) (n : ℕ) : List ℚ :=
  linspace (listMin xdata) (listMax xdata) n

/-- The grid on which a user function is actually drawn at render time. -/
def renderTimeGrid (p : Plot) : List ℚ := mplGrid (renderTimeXdata p) 100

/-- What one `mpl_plot_function` call draws: the `plt.plot` curve as (x, y)
pairs and, when the parameters were uncertain, the `plt.fill_between` band
as (x, lower, upper) triples. -/
structure MplDraw where
  curve : List (ℚ × ℚ)
  band : Option (List (ℚ × ℚ × ℚ))
  deriving DecidableEq

/-- The fill-between band geometry: at each grid point the band runs from
`mean - err` up to `mean + err`. -/
def bandOf (xvals fvals ferr : List ℚ) : List (ℚ × ℚ × ℚ) :=
  xvals.zip ((List.zipWith (fun a b => a - b) fvals ferr).zip
             (List.zipWith (fun a b => a + b) fvals ferr))

/-- The curve and band drawn from an uncertain curve `fmes` of (mean, std)
samples over `xvals`: plot the means, fill between means minus/plus stds. -/
def mplUpdateOf (xvals : List ℚ) (fmes : List (ℚ × ℚ)) : MplDraw :=
  let fvals := fmes.map Prod.fst
  let ferr := fmes.map Prod.snd
  { curve := xvals.zip fvals, band := some (bandOf xvals fvals ferr) }

/-- The full outcome of a `mpl_plot_function` call: the propagation-flag
state on return, the messages printed, and either the drawn geometry or the
escaping exception. -/
structure MplCall where
  g : GState
  msgs : List String
  out : Except PyErr MplDraw

/-- `Plot.mpl_plot_function`: build the grid from `xdata`, evaluate the
function according to the shape of `pars`, plot the curve and (for a
`Measurement_Array`) the error band.  For an uncertain parameter vector the
global flag `minmax_n` is saved, set to 1 for the evaluation, and restored.
The `errorbandfactor` argument is accepted but never used by the source
body: the band is always mean plus/minus one std.  In the unrecognized-pars
branch the source prints an error and then falls through to
`plt.plot(xvals, fvals)` with the local `fvals` never assigned, so an
UnboundLocalError escapes. -/
def mpl_plot_function (g : GState) (function : PyFunc) (xdata : List ℚ)
    (pars : Pars) (n : ℕ) (errorbandfactor : ℚ) : MplCall :=
  let xvals := mplGrid xdata n
  match pars with
  | Pars.pnone =>
      let fvals := function.evalPlain xvals []
      { g := g, msgs := [], out := Except.ok { curve := xvals.zip fvals, band := none } }
  | Pars.uncertain ps =>
      let recallVal := g.minmax_n
      let g1 : GState := { g with minmax_n := 1 }
      let fmes := function.evalUnc g1.minmax_n xvals ps
      let g2 : GState := { g1 with minmax_n := recallVal }
      { g := g2, msgs := [], out := Except.ok (mplUpdateOf xvals fmes) }
  | Pars.plain ps =>
      let fvals := function.evalPlain xvals ps
      { g := g, msgs := [], out := Except.ok { curve := xvals.zip fvals, band := none } }
  | Pars.other =>
      { g := g, msgs := ["Error: unrecognized parameters for function"],
        out := Except.error PyErr.unboundLocal }

/-- The evaluation step at the top of `Plot.add_function`: probe the function
on the add-time grid to obtain the values used for the y-range extension.
Returns `none` for an unrecognized parameter shape (the printed-error early
return).  For a `Measurement_Array` the global flag is saved, set to 1 for
the evaluation, and restored. -/
def add_function_eval (p : Plot) (g : GState) (function : PyFunc) (pars : Pars) :
    Option (List ℚ) × GState :=
  let xvals := addTimeGrid p
  match pars with
  | Pars.pnone => (some (function.evalPlain xvals []), g)
  | Pars.uncertain ps =>
      let recallVal := g.minmax_n
      let g1 : GState := { g with minmax_n := 1 }
      let fmes := function.evalUnc g1.minmax_n xvals ps
      let g2 : GState := { g1 with minmax_n := recallVal }
      (some (fmes.map Prod.fst), g2)
  | Pars.plain ps => (some (function.evalPlain xvals ps), g)
  | Pars.other => (none, g)

/-- `Plot.add_function`: evaluate the function over the current x-range at
100 points; on an unrecognized parameter shape print an error and return
with the plot unchanged; otherwise widen the y-range to cover the evaluated
extent plus margin, store the function entry, and assign a palette color
when none is given. -/
def add_function (p : Plot) (g : GState) (function : PyFunc) (pars : Pars)
    (name : Option String) (color : Option String) : Plot × GState × Option String :=
  match add_function_eval p g function pars with
  | (none, gq) => (p, gq, some "Error: Not a recognized format for parameter")
  | (some fvals, gq) =>
      let fmax := listMax fvals + p.y_range_margin
      let fmin := listMin fvals - p.y_range_margin
      let fname := match name with
        | some nm => nm
        | none => "userf_" ++ toString p.user_functions_count
      let p1 := { p with
        y_range := ((if fmin < p.y_range.1 then fmin else p.y_range.1),
                    (if fmax > p.y_range.2 then fmax else p.y_range.2)),
        user_functions := p.user_functions ++ [function],
        user_functions_pars := p.user_functions_pars ++ [pars],
        user_functions_names := p.user_functions_names ++ [fname],
        user_functions_count := p.user_functions_count + 1 }
      let p2 := match color with
        | none =>
            let cp := getColorFromPalette p1
            { cp.2 with user_functions_colors := cp.2.user_functions_colors ++ [cp.1] }
        | some col => { p1 with user_functions_colors := p1.user_functions_colors ++ [col] }
      (p2, gq, none)

/-- `Plot.populate_mpl_figure`, restricted to the curve evaluations it
performs (figure/axis bookkeeping and scatter draws have no effect on the
plot state or the flag): every fitted dataset's latest fit is drawn over the
dataset's own x-data at 50 points with its fitted `Measurement_Array`, then
every user function is drawn over `renderTimeXdata` at 100 points. -/
def populate_mpl_figure (p : Plot) (g : GState) : GState × List MplCall :=
  let step := fun (acc : GState × List MplCall) (ds : DataSet) =>
    match ds.fits.getLast? with
    | some fr =>
        let call := mpl_plot_function acc.1 fr.func ds.xdata (Pars.uncertain fr.pars) 50
          p.errorband_sigma
        (call.g, acc.2 ++ [call])
    | none => acc
  let acc1 := p.datasets.foldl step (g, [])
  let xvals := renderTimeXdata p
  let ustep := fun (acc : GState × List MplCall) (fp : PyFunc × Pars) =>
    let call := mpl_plot_function acc.1 fp.1 xvals fp.2 100 p.errorband_sigma
    (call.g, acc.2 ++ [call])
  (p.user_functions.zip p.user_functions_pars).foldl ustep acc1

/-- A created bokeh figure: the geometry and labels passed to `bp.figure`. -/
structure BkFig where
  width : ℤ
  height : ℤ
  x_range : ℚ × ℚ
  y_range : ℚ × ℚ
  title : String
  xlabel : String
  ylabel : String
  deriving DecidableEq

/-- `Plot.initialize_bokeh_figure(residuals=False)`: the main figure takes
the plot's dimensions, current ranges and labels. -/
def initialize_bokeh_figure_main (p : Plot) : BkFig :=
  { width := p.dimensions.1, height := p.dimensions.2,
    x_range := p.x_range, y_range := p.y_range,
    title := p.labels_title, xlabel := p.labels_xtitle, ylabel := p.labels_ytitle }

/-- `Plot.initialize_bokeh_figure(residuals=True)`: the residual sub-figure,
one third as tall, sharing the x range and using the residual y range.
Reading `self.yres_range` before it was ever assigned would raise, which is
why the caller must pattern-match the option first. -/
def initialize_bokeh_figure_res (p : Plot) (yr : ℚ × ℚ) : BkFig :=
  { width := p.dimensions.1, height := p.dimensions.2 / 3,
    x_range := p.x_range, y_range := yr,
    title := "", xlabel := p.labels_xtitle, ylabel := "Residuals" }

/-- Draw calls issued while populating the bokeh figure. -/
inductive BkCmd
  | data (name : String) (color : String) (residual : Bool)
  | fitCurve (name : String) (color : String) (n : ℕ)
  | textbox (npars : ℕ) (yoffset : ℚ)
  | func (name : String) (color : String) (n : ℕ) (xdata : List ℚ)
  deriving DecidableEq

/-- The y-offset returned by `bk_plot_fit_results_text_box`: it starts from
the incoming offset and grows by a fixed 18 screen pixels per parameter
line after the first. -/
def bk_text_box_return (npars : ℕ) (yoffset : ℚ) : ℚ :=
  yoffset + 18 * ((npars - 1 : ℕ) : ℚ)

/-- The accumulation step of the pixel count that `populate_bokeh_figure`
uses to inflate the y-range: 25 pixels per fitted parameter of each fitted
dataset's latest fit. -/
def bkPixelStep : ℕ → DataSet → ℕ :=
  fun acc ds => if 0 < ds.nfits then acc + nparsLast ds * 25 else acc

/-- The total fitted-parameter count over all fitted datasets. -/
def totalFitNpars (p : Plot) : ℕ :=
  (p.datasets.map (fun ds => if 0 < ds.nfits then nparsLast ds else 0)).sum

/-- The result of `populate_bokeh_figure`: the plot state on return, the
created main figure, the optional residual sub-figure, the exception (if
one escaped) and the draw calls issued. -/
structure BkOut where
  plot : Plot
  mainfig : BkFig
  resfig : Option BkFig
  err : Option PyErr
  cmds : List BkCmd

/-- The drawing phase of `populate_bokeh_figure` after both figures exist:
every dataset is drawn (with its latest fit curve at 50 points), fit-result
text boxes accumulate a vertical offset (+3 between datasets), residual
points are drawn when enabled, and finally each user function is drawn at
100 points over the margin-shrunk x-range.  None of these steps writes any
range field: the plot state is passed through unchanged. -/
def finishPopulate (p : Plot) (mainfig : BkFig) (resfig : Option BkFig) : BkOut :=
  let step := fun (acc : ℚ × List BkCmd) (dc : DataSet × String) =>
    let cmds0 := acc.2 ++ [BkCmd.data dc.1.name dc.2 false]
    let cmds0 := if 0 < dc.1.nfits then cmds0 ++ [BkCmd.fitCurve dc.1.name dc.2 50] else cmds0
    if 0 < dc.1.nfits then
      let acc1 := if p.show_fit_results
        then (bk_text_box_return (nparsLast dc.1) acc.1 + 3,
              cmds0 ++ [BkCmd.textbox (nparsLast dc.1) acc.1])
        else (acc.1, cmds0)
      if p.show_residuals then (acc1.1, acc1.2 ++ [BkCmd.data dc.1.name dc.2 true]) else acc1
    else (acc.1, cmds0)
  let accD := (p.datasets.zip p.datasets_colors).foldl step (0, [])
  let xvals := renderTimeXdata p
  let ucmds := (p.user_functions_names.zip p.user_functions_colors).map
    (fun nc => BkCmd.func nc.1 nc.2 100 xvals)
  { plot := p, mainfig := mainfig, resfig := resfig, err := none, cmds := accD.2 ++ ucmds }

/-- `Plot.populate_bokeh_figure`: when fit-result text boxes are shown, the
y-range upper bound is inflated by 25 pixels per fitted parameter converted
to data units via `y_range[1] / dimensions[1]`, the main figure is created,
and the upper bound is immediately restored; the residual sub-figure is
then created if requested (line 774 of the source names
`set_yres_range_from_fits` without calling it, so no recomputation happens
here, and an unset `yres_range` attribute raises), and the scene is drawn. -/
def populate_bokeh_figure (p : Plot) : BkOut :=
  let yrange_recall := p.y_range.2
  let p1 := if p.show_fit_results then
      let pixelcount := p.datasets.foldl bkPixelStep 0
      { p with y_range :=
          (p.y_range.1, p.y_range.2 + (pixelcount : ℚ) * p.y_range.2 / ((p.dimensions.2 : ℚ))) }
    else p
  let mainfig := initialize_bokeh_figure_main p1
  let p2 := { p1 with y_range := (p1.y_range.1, yrange_recall) }
  if p2.show_residuals then
    match p2.yres_range with
    | none => { plot := p2, mainfig := mainfig, resfig := none,
                err := some PyErr.attributeError, cmds := [] }
    | some yr => finishPopulate p2 mainfig (some (initialize_bokeh_figure_res p2 yr))
  else finishPopulate p2 mainfig none

/-- The scalar call `f(x, *pars)` of a fitted function handle, modelled by
evaluating the grid-based callable on the one-point grid. -/
def funcEvalScalar (f : PyFunc) (x : ℚ) (ps : List ℚ) : ℚ :=
  (f.evalPlain [x] ps).headD 0

/-- `Plot.interactive_linear_fit`, up to the slider/update user interface
(which only redraws): clear the last dataset's fits, fit it to a linear
model (the external fitting collaborator, abstracted as `fitLinear`), and
if the x-range lower bound is above -0.5, overwrite it with -0.5 and
overwrite the y-range lower bound with the fitted function evaluated at
-0.5.  Raises IndexError when no dataset is attached. -/
def interactive_linear_fit (p : Plot) (fitLinear : DataSet → FitRec) : Except PyErr Plot :=
  match p.datasets.getLast? with
  | none => Except.error PyErr.indexError
  | some ds0 =>
      let dsc := { ds0 with fits := [] }
      let fr := fitLinear dsc
      let ds1 := { dsc with fits := [fr] }
      let p1 := { p with datasets := p.datasets.dropLast ++ [ds1] }
      let p2 := if -(1/2) < p1.x_range.1 then
          { p1 with x_range := (-(1/2), p1.x_range.2),
                    y_range := (funcEvalScalar fr.func (-(1/2)) (fr.pars.map Prod.fst),
                                p1.y_range.2) }
        else p1
      Except.ok p2

/-- `Plot.bk_show_linear_fit`: same fit and range overwrite as
`interactive_linear_fit`, then create the bokeh figure, draw the dataset
and the fitted line with its band over the margin-shrunk range, and retain
the fitted parameters and correlation for `bk_interact_linear_fit`. -/
def bk_show_linear_fit (p : Plot) (fitLinear : DataSet → FitRec) :
    Except PyErr (Plot × BkFig × List BkCmd) :=
  match p.datasets.getLast? with
  | none => Except.error PyErr.indexError
  | some ds0 =>
      let color := p.datasets_colors.getLast?.getD ""
      let dsc := { ds0 with fits := [] }
      let fr := fitLinear dsc
      let ds1 := { dsc with fits := [fr] }
      let p1 := { p with datasets := p.datasets.dropLast ++ [ds1] }
      let p2 := if -(1/2) < p1.x_range.1 then
          { p1 with x_range := (-(1/2), p1.x_range.2),
                    y_range := (funcEvalScalar fr.func (-(1/2)) (fr.pars.map Prod.fst),
                                p1.y_range.2) }
        else p1
      let fig := initialize_bokeh_figure_main p2
      let xvals := renderTimeXdata p2
      let p3 := { p2 with linear_fit_pars := some fr.pars, linear_fit_corr := some fr.corr }
      Except.ok (p3, fig, [BkCmd.data ds1.name color false, BkCmd.func "linear" color 100 xvals])

/-- The uncertainty-propagation collaborator for the interactive updates:
given the global flag value in effect, the offset and slope (mean, std),
their correlation, and the x samples, return the propagated uncertain curve
`offset + slope * x` as (mean, std) samples. -/
abbrev UProp := ℤ → (ℚ × ℚ) → (ℚ × ℚ) → ℚ → List ℚ → List (ℚ × ℚ)

/-- The geometry pushed back to the live bokeh glyphs by the interactive
update: the line's new y data, and the band patch built as the upper edge
followed by the reversed lower edge. -/
structure BkLineUpdate where
  line_y : List ℚ
  patches_y : List ℚ
  deriving DecidableEq

/-- The patch geometry `np.append(ymax, ymin[::-1])` built from an uncertain
curve: upper edge mean + std, lower edge mean - std. -/
def bkUpdateOf (fmes : List (ℚ × ℚ)) : BkLineUpdate :=
  let fvals := fmes.map Prod.fst
  let ferr := fmes.map Prod.snd
  { line_y := fvals,
    patches_y := (List.zipWith (fun a b => a + b) fvals ferr) ++
                 (List.zipWith (fun a b => a - b) fvals ferr).reverse }

/-- The `update` callback inside `Plot.bk_interact_linear_fit`: save the
global flag, set it to 1, build the correlated offset/slope measurements
and propagate them over the retained line's x data, restore the flag, and
overwrite the retained line and patch geometry. -/
def bk_interact_update (g : GState) (uprop : UProp)
    (offset offset_err slope slope_err correlation : ℚ) (xdata : List ℚ) :
    GState × BkLineUpdate :=
  let recallVal := g.minmax_n
  let g1 : GState := { g with minmax_n := 1 }
  let fmes := uprop g1.minmax_n (offset, offset_err) (slope, slope_err) correlation xdata
  let g2 : GState := { g1 with minmax_n := recallVal }
  (g2, bkUpdateOf fmes)

/-- The `update` callback inside `Plot.interactive_linear_fit`: sample the
current x-range at 20 points, save the global flag, set it to 1, propagate
the correlated offset/slope over the grid, restore the flag, and redraw the
curve with its band. -/
def ilf_update (p : Plot) (g : GState) (uprop : UProp)
    (offset offset_err slope slope_err correlation : ℚ) : GState × MplDraw :=
  let xvals := linspace p.x_range.1 p.x_range.2 20
  let recallVal := g.minmax_n
  let g1 : GState := { g with minmax_n := 1 }
  let fmes := uprop g1.minmax_n (offset, offset_err) (slope, slope_err) correlation xvals
  let g2 : GState := { g1 with minmax_n := recallVal }
  (g2, mplUpdateOf xvals fmes)

/-- An element of a Python sequence passed as a range argument: a number or
any other value (Python lists are heterogeneous and the source never checks
element types). -/
inductive PyElem
  | num (q : ℚ)
  | nonnum
  deriving DecidableEq

/-- A Python value passed as the `x_range`/`y_range` argument of
`set_plot_range`: `None` (the default), a list/array of elements, or some
non-sequence scalar value. -/
inductive PyVal
  | noneV
  | listV (xs : List PyElem)
  | scalarV
  deriving DecidableEq

/-- Modelled from the spec: `qexpy.utils.array_types` (the `ARRAY` constant)
is not under src/; per the spec the range setter accepts sequence (list or
ndarray) arguments, so membership in `ARRAY` is being a list/array value. -/
def inARRAY : PyVal → Bool
  | PyVal.listV _ => true
  | _ => false

/-- Python `len` of a range argument (only queried on sequence values). -/
def pyLen : PyVal → ℕ
  | PyVal.listV xs => xs.length
  | _ => 0

/-- Whether `set_plot_range` accepts a value:
`type(arg) in ARRAY and len(arg) is 2`. -/
def validRangeArg (v : PyVal) : Bool := inARRAY v && decide (pyLen v = 2)

/-- The two range attributes of the Plot object, typed as the Python values
the setter stores into them. -/
structure RangeState where
  x_range : PyVal
  y_range : PyVal
  deriving DecidableEq

/-- `Plot.set_plot_range`: each argument is stored when it is a sequence of
length 2 (element types are not inspected); otherwise, when it is not
`None`, an error message is printed (modelled by the two booleans) and the
prior value is retained; `None` arguments are skipped silently. -/
def set_plot_range (s : RangeState) (x_range y_range : PyVal) : RangeState × Bool × Bool :=
  let sx := if validRangeArg x_range then { s with x_range := x_range } else s
  let mx := !validRangeArg x_range && !(decide (x_range = PyVal.noneV))
  let sy := if validRangeArg y_range then { sx with y_range := y_range } else sx
  let my := !validRangeArg y_range && !(decide (y_range = PyVal.noneV))
  (sy, mx, my)

/-- A range covers a box when the box lies inside it. -/
def rangeCovers (r b : ℚ × ℚ) : Prop := r.1 ≤ b.1 ∧ b.2 ≤ r.2

instance (r b : ℚ × ℚ) : Decidable (rangeCovers r b) :=
  inferInstanceAs (Decidable (r.1 ≤ b.1 ∧ b.2 ≤ r.2))

/-- The range invariant of the scene model: both axis ranges cover the
margin-expanded bounding box of every attached dataset. -/
def datasetsCovered (p : Plot) : Prop :=
  ∀ ds ∈ p.datasets,
    rangeCovers p.x_range (ds.get_x_range p.x_range_margin) ∧
    rangeCovers p.y_range (ds.get_y_range p.y_range_margin)

instance (p : Plot) : Decidable (datasetsCovered p) :=
  inferInstanceAs (Decidable (∀ ds ∈ p.datasets, _ ∧ _))

/-- A sample uncertain user function: mean x and std 1 at each grid point. -/
def c1func : PyFunc :=
  { evalPlain := fun grid _ => grid,
    evalUnc := fun _ grid _ => grid.map (fun x => (x, 1)) }

/-- A constant fitted function with value 3 everywhere. -/
def const3Func : PyFunc :=
  { evalPlain := fun grid _ => grid.map (fun _ => 3),
    evalUnc := fun _ grid _ => grid.map (fun _ => (3, 0)) }

/-- A sample fit record with one parameter. -/
def frTriv : FitRec := { func := c1func, pars := [(0, 1)], corr := 0, resmin := 0, resmax := 0 }

/-- A small dataset spanning x in [1/10, 1/5] and y in [1/10, 1/5]. -/
def dsSmall : DataSet :=
  { xdata := [1/10, 1/5], ydata := [1/10, 1/5], xerr := [], yerr := [],
    xname := "x", xunits := "", yname := "y", yunits := "", name := "small",
    is_histogram := false, fits := [] }

/-- A dataset spanning x in [1, 2] and y in [1, 2]. -/
def dsUnit : DataSet :=
  { xdata := [1, 2], ydata := [1, 2], xerr := [], yerr := [],
    xname := "x", xunits := "", yname := "y", yunits := "", name := "unit",
    is_histogram := false, fits := [] }

/-- A second dataset spanning x in [3, 4] and y in [-1, 0]. -/
def dsWide : DataSet :=
  { xdata := [3, 4], ydata := [-1, 0], xerr := [], yerr := [],
    xname := "x", xunits := "", yname := "y", yunits := "", name := "wide",
    is_histogram := false, fits := [] }

/-- A dataset that has been fit once. -/
def dsFit : DataSet := { dsUnit with name := "fitted", fits := [frTriv] }

/-- A dataset with no fits. -/
def dsNoFit : DataSet := { dsUnit with name := "unfitted" }

/-- A plot whose first attached dataset has a fit but whose last does not. -/
def pC7 : Plot := add_dataset (add_dataset (mkPlot none) dsFit none none) dsNoFit none none

/-- A plot with one attached dataset, used as a generic concrete state. -/
def pW : Plot := add_dataset (mkPlot none) dsUnit none none

/-- A plot with a proper x-range for the grid comparison. -/
def pC4 : Plot := { mkPlot none with x_range := (0, 2) }

/-- The external linear-fit collaborator abstracted for the shrink example:
it always returns offset 3 (exactly), slope 0. -/
def constFit3 : DataSet → FitRec :=
  fun _ => { func := const3Func, pars := [(3, 0), (0, 0)], corr := 0, resmin := 0, resmax := 0 }

/-- Prior state of the range attributes for the setter example. -/
def rs0 : RangeState :=
  { x_range := PyVal.listV [PyElem.num 0, PyElem.num 1],
    y_range := PyVal.listV [PyElem.num 0, PyElem.num 1] }

/-- A 2-element list that is not a numeric sequence. -/
def badx : PyVal := PyVal.listV [PyElem.nonnum, PyElem.nonnum]

/-! Helper lemmas. -/

theorem getD_mem_of_lt (l : List String) (n : ℕ) (d : String) (h : n < l.length) :
    l.getD n d ∈ l := by
  rw [List.getD_eq_getElem _ _ h]; exact List.getElem_mem h

theorem linspace_length (a b : ℚ) (n : ℕ) : (linspace a b n).length = n := by
  unfold linspace
  rw [List.length_map, List.length_range]

theorem linspace_head (a b : ℚ) (n : ℕ) (h : n ≠ 0) : (linspace a b n).head? = some a := by
  obtain ⟨m, rfl⟩ := Nat.exists_eq_succ_of_ne_zero h
  simp [linspace, List.range_succ_eq_map]

theorem colorStep_color_palette (p : Plot) : (colorStep p).color_palette = p.color_palette := rfl

theorem colorStep_iterate_count (p : Plot) (h0 : p.color_count = 0) :
    ∀ k, k ≤ p.color_palette.length →
      (colorStep^[k] p).color_count = k ∧ (colorStep^[k] p).color_palette = p.color_palette := by
  intro k
  induction k with
  | zero => exact fun _ => ⟨h0, rfl⟩
  | succ m ih =>
      intro hk
      have hm := ih (Nat.le_of_succ_le hk)
      rw [Function.iterate_succ_apply']
      constructor
      · show paletteNext (colorStep^[m] p) = m + 1
        rw [paletteNext, hm.1, hm.2]
        rw [if_neg]
        omega
      · rw [colorStep_color_palette, hm.2]

theorem paletteNext_sub_one_lt (p : Plot) (h : 0 < p.color_palette.length) :
    paletteNext p - 1 < p.color_palette.length := by
  rw [paletteNext]
  split
  · omega
  · omega

theorem bkPixelStep_foldl (l : List DataSet) (acc : ℕ) :
    l.foldl bkPixelStep acc
      = acc + 25 * (l.map (fun ds => if 0 < ds.nfits then nparsLast ds else 0)).sum := by
  induction l generalizing acc with
  | nil => simp
  | cons d t ih =>
      by_cases h : 0 < d.nfits <;> simp [bkPixelStep, h, ih] <;> ring

/-! Claim theorems. -/

/-- C1: for a curve drawn from an uncertain parameter vector, the claim says
the shaded band spans exactly mean minus/plus c times std for the configured
confidence factor c.  The code evaluates: with errorbandfactor c = 2 and an
uncertain curve of std 1, `mpl_plot_function` fills between mean - std and
mean + std (here (-1, 1) at the first sample), not mean - 2 std and
mean + 2 std (which would be (-2, 2)): the `errorbandfactor` argument is
never used.  (The std array does have the same length as the mean array, by
construction of the uncertain-curve interface.) -/
theorem claim_C1_band_ignores_factor :
    (mpl_plot_function { minmax_n := 5 } c1func [0, 1] (Pars.uncertain [(0, 1)]) 2 2).out.toOption
        = some { curve := [(0, 0), (1, 1)], band := some [(0, -1, 1), (1, 0, 2)] }
      ∧ ¬((0 : ℚ) - 2 * 1 = -1 ∧ (0 : ℚ) + 2 * 1 = 1) := by
  constructor
  · norm_num [mpl_plot_function, mplGrid, listMin, listMax, linspace, List.range_succ,
      mplUpdateOf, bandOf, c1func, min_def, max_def, Except.toOption]
  · intro h
    have := h.1
    norm_num at this

/-- C5: the claim says an unrecognized parameter shape aborts the evaluation
with no curve produced and no exception escaping, for both `add_function`
and `mpl_plot_function`.  `add_function` does abort cleanly (third
conjunct), but `mpl_plot_function` only prints the error and then falls
through to `plt.plot(xvals, fvals)` with the local `fvals` never assigned,
so an UnboundLocalError escapes to the caller. -/
theorem claim_C5_unrecognized_pars_crash :
    (mpl_plot_function { minmax_n := 0 } c1func [0, 1] Pars.other 100 1).out
        = Except.error PyErr.unboundLocal
      ∧ (mpl_plot_function { minmax_n := 0 } c1func [0, 1] Pars.other 100 1).msgs
        = ["Error: unrecognized parameters for function"]
      ∧ add_function (mkPlot none) { minmax_n := 0 } c1func Pars.other none none
        = (mkPlot none, { minmax_n := 0 }, some "Error: Not a recognized format for parameter") :=
  ⟨rfl, rfl, rfl⟩

/-- C6: every evaluation of a function with an uncertain parameter vector
(in `add_function`, `mpl_plot_function`, and both interactive-fit update
callbacks) is performed with the global flag `qe.Measurement.minmax_n`
equal to 1, and the flag equals its pre-call value again when the call
returns, for every pre-call value `g.minmax_n`. -/
theorem claim_C6_minmax_restored :
    ∀ (g : GState) (p : Plot) (f : PyFunc) (ps : List (ℚ × ℚ)) (nm c : Option String)
      (xd : List ℚ) (n : ℕ) (e : ℚ) (uprop : UProp) (o oe s se co : ℚ) (xdata : List ℚ),
      add_function_eval p g f (Pars.uncertain ps)
          = (some ((f.evalUnc 1 (addTimeGrid p) ps).map Prod.fst), g)
      ∧ (add_function p g f (Pars.uncertain ps) nm c).2.1 = g
      ∧ (mpl_plot_function g f xd (Pars.uncertain ps) n e).g = g
      ∧ (mpl_plot_function g f xd (Pars.uncertain ps) n e).out
          = Except.ok (mplUpdateOf (mplGrid xd n) (f.evalUnc 1 (mplGrid xd n) ps))
      ∧ (bk_interact_update g uprop o oe s se co xdata).1 = g
      ∧ (bk_interact_update g uprop o oe s se co xdata).2
          = bkUpdateOf (uprop 1 (o, oe) (s, se) co xdata)
      ∧ (ilf_update p g uprop o oe s se co).1 = g
      ∧ (ilf_update p g uprop o oe s se co).2
          = mplUpdateOf (linspace p.x_range.1 p.x_range.2 20)
              (uprop 1 (o, oe) (s, se) co (linspace p.x_range.1 p.x_range.2 20)) := by
  intro g p f ps nm c xd n e uprop o oe s se co xdata
  refine ⟨rfl, ?_, rfl, rfl, rfl, rfl, rfl, rfl⟩
  cases c <;> rfl

/-- C3: automatic color assignment never runs out of bounds: on any plot
with a nonempty palette the returned color is an element of the palette
(for every current cursor value, i.e. every number of prior assignments),
and starting from a fresh cursor, after N assignments for a palette of
length N the next assignment returns the palette entry at index 0. -/
theorem claim_C3_palette_wrap :
    ∀ p : Plot, 0 < p.color_palette.length →
      (getColorFromPalette p).1 ∈ p.color_palette ∧
      p.color_palette.get? 0
        = some ((getColorFromPalette
            (colorStep^[p.color_palette.length] { p with color_count := 0 })).1) := by
  intro p h
  constructor
  · exact getD_mem_of_lt _ _ _ (paletteNext_sub_one_lt p h)
  · obtain ⟨hc, hp⟩ :=
      colorStep_iterate_count { p with color_count := 0 } rfl
        p.color_palette.length (le_refl _)
    have hnext : paletteNext (colorStep^[p.color_palette.length] { p with color_count := 0 }) = 1 := by
      rw [paletteNext, hc, hp, if_pos (Nat.lt_succ_self _)]
    show p.color_palette.get? 0
        = some ((colorStep^[p.color_palette.length] { p with color_count := 0 }).color_palette.getD
            (paletteNext (colorStep^[p.color_palette.length] { p with color_count := 0 }) - 1) "")
    rw [hnext, hp]
    cases hpal : p.color_palette with
    | nil => rw [hpal] at h; simp at h
    | cons a t => simp [List.getD]

/-- Witness for C3 at the default 17-color palette. -/
theorem claim_C3_palette_wrap_witness :
    0 < (mkPlot none).color_palette.length ∧
    ((getColorFromPalette (mkPlot none)).1 ∈ (mkPlot none).color_palette ∧
      (mkPlot none).color_palette.get? 0
        = some ((getColorFromPalette
            (colorStep^[(mkPlot none).color_palette.length]
              { mkPlot none with color_count := 0 })).1)) :=
  ⟨by decide, claim_C3_palette_wrap (mkPlot none) (by decide)⟩

/-- C4 (amended): the add-time probe and the render-time draw of a user
function both use 100 sample points, but not the same endpoints: the
add-time grid spans the full x-range while the render-time grid spans the
x-range shrunk by the margin on both sides, so for a nonzero margin the two
grids differ.  (The claim as stated, that both evaluations use the same
grid, is refuted by the counterexample theorem.) -/
theorem claim_C4_amended_grids :
    ∀ p : Plot,
      ((addTimeGrid p).length = 100 ∧ (renderTimeGrid p).length = 100 ∧
        (addTimeGrid p).head? = some p.x_range.1) ∧
      (p.x_range.1 + p.x_range_margin ≤ p.x_range.2 - p.x_range_margin →
        (renderTimeGrid p).head? = some (p.x_range.1 + p.x_range_margin) ∧
        (p.x_range_margin ≠ 0 → addTimeGrid p ≠ renderTimeGrid p)) := by
  intro p
  refine ⟨⟨linspace_length _ _ _, linspace_length _ _ _,
    linspace_head _ _ _ (by norm_num)⟩, ?_⟩
  intro hle
  have hmin : listMin (renderTimeXdata p) = p.x_range.1 + p.x_range_margin := by
    simp only [renderTimeXdata, listMin, List.foldl_cons, List.foldl_nil]
    exact min_eq_left hle
  have h1 : (addTimeGrid p).head? = some p.x_range.1 :=
    linspace_head p.x_range.1 p.x_range.2 100 (by norm_num)
  have hhead : (renderTimeGrid p).head? = some (p.x_range.1 + p.x_range_margin) := by
    have h2 : (renderTimeGrid p).head? = some (listMin (renderTimeXdata p)) :=
      linspace_head _ _ 100 (by norm_num)
    rw [h2, hmin]
  refine ⟨hhead, ?_⟩
  intro hm hgrids
  have hh := congrArg List.head? hgrids
  rw [h1, hhead] at hh
  have := Option.some.inj hh
  apply hm
  linarith

/-- C4 counterexample: on the default plot (x-range [0, 1], margin 1/2) the
add-time grid starts at 0 while the render-time grid starts at 1/2, so the
sampling grids of the two evaluations are not equal. -/
theorem claim_C4_cex :
    (addTimeGrid (mkPlot none)).head? = some 0 ∧
    (renderTimeGrid (mkPlot none)).head? = some (1/2) ∧
    addTimeGrid (mkPlot none) ≠ renderTimeGrid (mkPlot none) := by
  have hx : (mkPlot none).x_range = (0, 1) := rfl
  have hm : (mkPlot none).x_range_margin = 1/2 := rfl
  have h1 : (addTimeGrid (mkPlot none)).head? = some 0 := by
    have := linspace_head (mkPlot none).x_range.1 (mkPlot none).x_range.2 100 (by norm_num)
    rw [hx] at this
    exact this
  have h2 : (renderTimeGrid (mkPlot none)).head? = some (1/2) := by
    have hmin : listMin (renderTimeXdata (mkPlot none)) = 1/2 := by
      rw [renderTimeXdata, hx, hm]
      norm_num [listMin, min_def]
    have hbase : (renderTimeGrid (mkPlot none)).head?
        = some (listMin (renderTimeXdata (mkPlot none))) :=
      linspace_head _ _ 100 (by norm_num)
    rw [hbase, hmin]
  refine ⟨h1, h2, ?_⟩
  intro hgrids
  have hh := congrArg List.head? hgrids
  rw [h1, h2] at hh
  have := Option.some.inj hh
  norm_num at this

/-- Witness for C4 (amended) at a plot with x-range [0, 2] and margin 1/2. -/
theorem claim_C4_amended_grids_witness :
    (pC4.x_range.1 + pC4.x_range_margin ≤ pC4.x_range.2 - pC4.x_range_margin) ∧
    pC4.x_range_margin ≠ 0 ∧
    ((addTimeGrid pC4).length = 100 ∧ (renderTimeGrid pC4).length = 100 ∧
      (addTimeGrid pC4).head? = some pC4.x_range.1) ∧
    (renderTimeGrid pC4).head? = some (pC4.x_range.1 + pC4.x_range_margin) ∧
    addTimeGrid pC4 ≠ renderTimeGrid pC4 := by
  have hxr : pC4.x_range = (0, 2) := rfl
  have hmr : pC4.x_range_margin = 1/2 := rfl
  have hle : pC4.x_range.1 + pC4.x_range_margin ≤ pC4.x_range.2 - pC4.x_range_margin := by
    rw [hxr, hmr]; norm_num
  have hm : pC4.x_range_margin ≠ 0 := by rw [hmr]; norm_num
  exact ⟨hle, hm, (claim_C4_amended_grids pC4).1,
    ((claim_C4_amended_grids pC4).2 hle).1, ((claim_C4_amended_grids pC4).2 hle).2 hm⟩

/-- C7 counterexample: on a plot whose first attached dataset has a fit but
whose last does not, at least one attached dataset has a fit, yet
`add_residuals` leaves `show_residuals` false (it only consults
`datasets[-1]`), contradicting the claimed if-and-only-if. -/
theorem claim_C7_cex :
    0 < ((pC7.datasets.get? 0).map DataSet.nfits).getD 0 ∧
    (add_residuals pC7).toOption.map Plot.show_residuals = some false := by decide

/-- C7 (amended): `add_residuals` raises an IndexError when no dataset is
attached; otherwise it recomputes the residual range and then sets
`show_residuals` to true exactly when the last attached dataset has at
least one fit — fits on earlier datasets do not count, and when the last
dataset has no fit the flag keeps its prior value. -/
theorem claim_C7_amended :
    ∀ p : Plot,
      (p.datasets.getLast? = none → add_residuals p = Except.error PyErr.indexError) ∧
      (∀ dl, p.datasets.getLast? = some dl →
        add_residuals p
          = Except.ok (if 0 < dl.nfits
              then { set_yres_range_from_fits p with show_residuals := true }
              else set_yres_range_from_fits p)) := by
  intro p
  have hds : (set_yres_range_from_fits p).datasets = p.datasets := rfl
  constructor
  · intro h
    simp only [add_residuals]
    split
    · rfl
    · next dl heq =>
        rw [hds, h] at heq
        exact Option.noConfusion heq
  · intro dl h
    simp only [add_residuals]
    split
    · next heq =>
        rw [hds, h] at heq
        exact Option.noConfusion heq
    · next last heq =>
        rw [hds, h] at heq
        rw [Option.some.inj heq]

/-- Witness for C7 (amended) at the two-dataset plot `pC7`. -/
theorem claim_C7_amended_witness :
    pC7.datasets.getLast? = some dsNoFit ∧
    add_residuals pC7
      = Except.ok (if 0 < dsNoFit.nfits
          then { set_yres_range_from_fits pC7 with show_residuals := true }
          else set_yres_range_from_fits pC7) :=
  ⟨rfl, (claim_C7_amended pC7).2 dsNoFit rfl⟩

/-- C8: with fit-result text boxes enabled, the y-range upper bound passed
to the backend-figure constructor is the caller's upper bound inflated by
25 pixels per fitted parameter (over all fitted datasets) converted to data
units through division by the figure's pixel height, and the plot state
returned by `populate_bokeh_figure` carries the original, uninflated
y-range. -/
theorem claim_C8_yrange_transient :
    ∀ p : Plot, p.show_fit_results = true →
      (populate_bokeh_figure p).mainfig.y_range.2
        = p.y_range.2 + ((25 * totalFitNpars p : ℕ) : ℚ) * p.y_range.2 / ((p.dimensions.2 : ℚ))
      ∧ (populate_bokeh_figure p).plot.y_range = p.y_range := by
  intro p h
  have hfold : ((p.datasets.foldl bkPixelStep 0 : ℕ) : ℚ) = ((25 * totalFitNpars p : ℕ) : ℚ) := by
    rw [bkPixelStep_foldl, totalFitNpars, Nat.zero_add]
  have hproj : ∀ (q : Plot) (mf : BkFig) (rf : Option BkFig),
      (finishPopulate q mf rf).mainfig = mf ∧ (finishPopulate q mf rf).plot = q :=
    fun q mf rf => ⟨rfl, rfl⟩
  simp only [populate_bokeh_figure, h, eq_self_iff_true, if_true, initialize_bokeh_figure_main]
  cases hr : p.show_residuals with
  | true =>
      simp only [hr, eq_self_iff_true, if_true]
      cases hyr : p.yres_range with
      | none =>
          simp only [hyr]
          exact ⟨by rw [hfold], by simp⟩
      | some yr =>
          simp only [hyr]
          exact ⟨by rw [(hproj _ _ _).1, hfold], by rw [(hproj _ _ _).2]⟩
  | false =>
      simp only [hr, Bool.false_eq_true, if_false]
      exact ⟨by rw [(hproj _ _ _).1, hfold], by rw [(hproj _ _ _).2]⟩

/-- Witness for C8 at the default plot (no fitted datasets: zero inflation,
range restored). -/
theorem claim_C8_yrange_transient_witness :
    (mkPlot none).show_fit_results = true ∧
    ((populate_bokeh_figure (mkPlot none)).mainfig.y_range.2
        = (mkPlot none).y_range.2
          + ((25 * totalFitNpars (mkPlot none) : ℕ) : ℚ) * (mkPlot none).y_range.2
            / (((mkPlot none).dimensions.2 : ℚ))
      ∧ (populate_bokeh_figure (mkPlot none)).plot.y_range = (mkPlot none).y_range) :=
  ⟨rfl, claim_C8_yrange_transient (mkPlot none) rfl⟩

/-- C9 counterexample: a 2-element list whose elements are not numbers is
stored by `set_plot_range` without any report, while the claim says any
argument that is not a 2-element numeric sequence is reported and the prior
value retained. -/
theorem claim_C9_cex :
    (set_plot_range rs0 badx PyVal.noneV).1.x_range = badx ∧
    badx ≠ rs0.x_range ∧
    (set_plot_range rs0 badx PyVal.noneV).2.1 = false := by decide

/-- C9 (amended): `set_plot_range` stores a range argument exactly when it
is a list/array of length 2, with no check on the element types; a passed
argument that is neither `None` nor a length-2 sequence is reported and the
prior value is retained; `None` is skipped silently. -/
theorem claim_C9_amended :
    ∀ (s : RangeState) (xv yv : PyVal),
      ((set_plot_range s xv yv).1.x_range = if validRangeArg xv then xv else s.x_range) ∧
      ((set_plot_range s xv yv).1.y_range = if validRangeArg yv then yv else s.y_range) ∧
      ((set_plot_range s xv yv).2.1 = (!validRangeArg xv && !(decide (xv = PyVal.noneV)))) ∧
      ((set_plot_range s xv yv).2.2 = (!validRangeArg yv && !(decide (yv = PyVal.noneV)))) := by
  intro s xv yv
  unfold set_plot_range
  cases hx : validRangeArg xv <;> cases hy : validRangeArg yv <;> simp [hx, hy]

theorem add_dataset_empty_spec (p : Plot) (ds : DataSet) (c n : Option String)
    (hds : p.datasets = []) :
    (add_dataset p ds c n).x_range_margin = p.x_range_margin
    ∧ (add_dataset p ds c n).y_range_margin = p.y_range_margin
    ∧ (add_dataset p ds c n).datasets = [n.elim ds (fun nm => { ds with name := nm })]
    ∧ (add_dataset p ds c n).x_range = ds.get_x_range p.x_range_margin
    ∧ (add_dataset p ds c n).y_range = ds.get_y_range p.y_range_margin := by
  cases c <;> cases n <;>
    simp [add_dataset, initialize_from_dataset, set_range_from_dataset,
      set_yres_range_from_fits, getColorFromPalette, hds, Option.elim]

theorem dropLast_cons_concat (d0 : DataSet) (rest : List DataSet) (x : DataSet) :
    (d0 :: (rest ++ [x])).dropLast = d0 :: rest := by
  rw [← List.cons_append, List.dropLast_concat]

theorem add_dataset_nonempty_spec (p : Plot) (ds : DataSet) (c n : Option String)
    (d0 : DataSet) (rest : List DataSet) (hds : p.datasets = d0 :: rest) :
    (add_dataset p ds c n).x_range_margin = p.x_range_margin
    ∧ (add_dataset p ds c n).y_range_margin = p.y_range_margin
    ∧ (add_dataset p ds c n).datasets
        = p.datasets ++ [n.elim ds (fun nm => { ds with name := nm })]
    ∧ (add_dataset p ds c n).x_range
        = ((if (ds.get_x_range p.x_range_margin).1 < p.x_range.1
              then (ds.get_x_range p.x_range_margin).1 else p.x_range.1),
           (if (ds.get_x_range p.x_range_margin).2 > p.x_range.2
              then (ds.get_x_range p.x_range_margin).2 else p.x_range.2))
    ∧ (add_dataset p ds c n).y_range
        = ((if (ds.get_y_range p.y_range_margin).1 < p.y_range.1
              then (ds.get_y_range p.y_range_margin).1 else p.y_range.1),
           (if (ds.get_y_range p.y_range_margin).2 > p.y_range.2
              then (ds.get_y_range p.y_range_margin).2 else p.y_range.2)) := by
  have hlen : ¬ (rest.length + 1 + 1 < 2) := by omega
  cases c <;> cases n <;>
    simp [add_dataset, set_yres_range_from_fits, getColorFromPalette, hlen,
      List.dropLast_concat, dropLast_cons_concat, Option.elim, hds]

/-- C2 (amended): after every `add_dataset` call the x and y ranges cover
the margin-expanded bounding box of every attached dataset, and every
`add_dataset` call on a plot that already has at least one attached dataset
only widens, never narrows, both ranges.  The first attach on an empty plot
instead overwrites the ranges from that dataset alone, which can narrow
them relative to the prior values (see the counterexample theorem). -/
theorem claim_C2_amended :
    ∀ (p : Plot) (ds : DataSet) (c n : Option String),
      (datasetsCovered p → datasetsCovered (add_dataset p ds c n)) ∧
      (p.datasets ≠ [] →
        (add_dataset p ds c n).x_range.1 ≤ p.x_range.1 ∧
        p.x_range.2 ≤ (add_dataset p ds c n).x_range.2 ∧
        (add_dataset p ds c n).y_range.1 ≤ p.y_range.1 ∧
        p.y_range.2 ≤ (add_dataset p ds c n).y_range.2) := by
  intro p ds c n
  have hbx : (n.elim ds (fun nm => { ds with name := nm })).get_x_range = ds.get_x_range := by
    cases n <;> rfl
  have hby : (n.elim ds (fun nm => { ds with name := nm })).get_y_range = ds.get_y_range := by
    cases n <;> rfl
  cases hds : p.datasets with
  | nil =>
      obtain ⟨hmx, hmy, hsets, hx, hy⟩ := add_dataset_empty_spec p ds c n hds
      constructor
      · intro _ d hd
        rw [hsets] at hd
        have hd' : d = n.elim ds (fun nm => { ds with name := nm }) := by simpa using hd
        subst hd'
        rw [hmx, hmy, hx, hy, hbx, hby]
        exact ⟨⟨le_refl _, le_refl _⟩, ⟨le_refl _, le_refl _⟩⟩
      · intro hne
        exact absurd rfl hne
  | cons d0 rest =>
      obtain ⟨hmx, hmy, hsets, hx, hy⟩ := add_dataset_nonempty_spec p ds c n d0 rest hds
      have hwiden :
          (add_dataset p ds c n).x_range.1 ≤ p.x_range.1 ∧
          p.x_range.2 ≤ (add_dataset p ds c n).x_range.2 ∧
          (add_dataset p ds c n).y_range.1 ≤ p.y_range.1 ∧
          p.y_range.2 ≤ (add_dataset p ds c n).y_range.2 := by
        rw [hx, hy]
        refine ⟨?_, ?_, ?_, ?_⟩ <;> dsimp only <;> split_ifs with h
        · exact le_of_lt h
        · exact le_refl _
        · exact le_of_lt h
        · exact le_refl _
        · exact le_of_lt h
        · exact le_refl _
        · exact le_of_lt h
        · exact le_refl _
      have hcoverNew :
          rangeCovers (add_dataset p ds c n).x_range (ds.get_x_range p.x_range_margin) ∧
          rangeCovers (add_dataset p ds c n).y_range (ds.get_y_range p.y_range_margin) := by
        rw [hx, hy]
        constructor <;> constructor <;> dsimp only <;> split_ifs with h
        · exact le_refl _
        · exact le_of_not_lt h
        · exact le_refl _
        · exact le_of_not_lt h
        · exact le_refl _
        · exact le_of_not_lt h
        · exact le_refl _
        · exact le_of_not_lt h
      constructor
      · intro hcov d hd
        rw [hsets] at hd
        rw [hmx, hmy]
        rcases List.mem_append.mp hd with hold | hnew
        · have hc := hcov d hold
          constructor
          · exact ⟨le_trans hwiden.1 hc.1.1, le_trans hc.1.2 hwiden.2.1⟩
          · exact ⟨le_trans hwiden.2.2.1 hc.2.1, le_trans hc.2.2 hwiden.2.2.2⟩
        · have hd' : d = n.elim ds (fun nm => { ds with name := nm }) := by simpa using hnew
          subst hd'
          rw [hbx, hby]
          exact hcoverNew
      · intro _
        exact hwiden

/-- C2 counterexample: the claim as stated says every `add_dataset` call
only widens both ranges; but the first `add_dataset` on an empty plot
(default x-range [0, 1]) re-initializes the range from the dataset, and
with a dataset spanning x in [1/10, 1/5] the x-range upper bound drops from
1 to 7/10 — the call narrowed the range. -/
theorem claim_C2_cex :
    (mkPlot none).x_range.2 = 1 ∧
    (add_dataset (mkPlot none) dsSmall none none).x_range.2 < 1 := by
  have hspec := add_dataset_empty_spec (mkPlot none) dsSmall none none rfl
  constructor
  · rfl
  · rw [hspec.2.2.2.1]
    have hm : (mkPlot none).x_range_margin = 1/2 := rfl
    rw [DataSet.get_x_range, hm]
    norm_num [dsSmall, listMax, max_def]

/-- Witness for C2 (amended): a plot with one attached dataset, to which a
second dataset is added. -/
theorem claim_C2_amended_witness :
    datasetsCovered pW ∧ pW.datasets ≠ [] ∧
    (datasetsCovered (add_dataset pW dsWide none none) ∧
      ((add_dataset pW dsWide none none).x_range.1 ≤ pW.x_range.1 ∧
       pW.x_range.2 ≤ (add_dataset pW dsWide none none).x_range.2 ∧
       (add_dataset pW dsWide none none).y_range.1 ≤ pW.y_range.1 ∧
       pW.y_range.2 ≤ (add_dataset pW dsWide none none).y_range.2)) := by
  obtain ⟨hmx, hmy, hsets, hx, hy⟩ := add_dataset_empty_spec (mkPlot none) dsUnit none none rfl
  have hcov0 : datasetsCovered (add_dataset (mkPlot none) dsUnit none none) := by
    intro d hd
    rw [hsets] at hd
    have hd' : d = dsUnit := by simpa using hd
    subst hd'
    rw [hmx, hmy, hx, hy]
    exact ⟨⟨le_refl _, le_refl _⟩, ⟨le_refl _, le_refl _⟩⟩
  have hcov : datasetsCovered pW := hcov0
  have hne0 : (add_dataset (mkPlot none) dsUnit none none).datasets ≠ [] := by
    rw [hsets]
    simp
  have hne : pW.datasets ≠ [] := hne0
  exact ⟨hcov, hne, (claim_C2_amended pW dsWide none none).1 hcov,
    (claim_C2_amended pW dsWide none none).2 hne⟩

/-- C10: on any plot with an attached dataset whose x-range lower bound is
above -0.5, both `interactive_linear_fit` and `bk_show_linear_fit`
overwrite the x-range lower bound with -0.5 and the y-range lower bound
with the freshly fitted linear function's value at -0.5; concretely (second
conjunct) this can raise the y-range lower bound (from 1/2 to 3), so the
grow-only range property does not survive these entry points. -/
theorem claim_C10_linear_fit_range :
    (∀ (p : Plot) (fitLinear : DataSet → FitRec) (dl : DataSet),
      p.datasets.getLast? = some dl → -(1/2) < p.x_range.1 →
      ((interactive_linear_fit p fitLinear).toOption.map (fun q => (q.x_range.1, q.y_range.1))
          = some (-(1/2),
              funcEvalScalar (fitLinear { dl with fits := [] }).func (-(1/2))
                ((fitLinear { dl with fits := [] }).pars.map Prod.fst))
        ∧ (bk_show_linear_fit p fitLinear).toOption.map (fun q => (q.1.x_range.1, q.1.y_range.1))
          = some (-(1/2),
              funcEvalScalar (fitLinear { dl with fits := [] }).func (-(1/2))
                ((fitLinear { dl with fits := [] }).pars.map Prod.fst))))
    ∧ ((interactive_linear_fit pW constFit3).toOption.map (fun q => (q.x_range.1, q.y_range.1))
          = some (-(1/2), 3)
        ∧ pW.y_range.1 < 3) := by
  have hA : ∀ (p : Plot) (fitLinear : DataSet → FitRec) (dl : DataSet),
      p.datasets.getLast? = some dl → -(1/2) < p.x_range.1 →
      ((interactive_linear_fit p fitLinear).toOption.map (fun q => (q.x_range.1, q.y_range.1))
          = some (-(1/2),
              funcEvalScalar (fitLinear { dl with fits := [] }).func (-(1/2))
                ((fitLinear { dl with fits := [] }).pars.map Prod.fst))
        ∧ (bk_show_linear_fit p fitLinear).toOption.map (fun q => (q.1.x_range.1, q.1.y_range.1))
          = some (-(1/2),
              funcEvalScalar (fitLinear { dl with fits := [] }).func (-(1/2))
                ((fitLinear { dl with fits := [] }).pars.map Prod.fst))) := by
    intro p f dl hlast hx
    constructor
    · simp only [interactive_linear_fit, hlast]
      rw [if_pos hx]
      rfl
    · simp only [bk_show_linear_fit, hlast]
      rw [if_pos hx]
      rfl
  refine ⟨hA, ?_⟩
  have hlast : pW.datasets.getLast? = some dsUnit := rfl
  have hx : -(1/2) < pW.x_range.1 := by
    have hxr : pW.x_range = dsUnit.get_x_range (mkPlot none).x_range_margin :=
      (add_dataset_empty_spec (mkPlot none) dsUnit none none rfl).2.2.2.1
    rw [hxr, DataSet.get_x_range]
    have hm : (mkPlot none).x_range_margin = 1/2 := rfl
    rw [hm]
    norm_num [dsUnit, listMin, min_def]
  have hinst := (hA pW constFit3 dsUnit hlast hx).1
  have hval : funcEvalScalar (constFit3 { dsUnit with fits := [] }).func (-(1/2))
      ((constFit3 { dsUnit with fits := [] }).pars.map Prod.fst) = 3 := rfl
  rw [hval] at hinst
  refine ⟨hinst, ?_⟩
  have hyr : pW.y_range = dsUnit.get_y_range (mkPlot none).y_range_margin :=
    (add_dataset_empty_spec (mkPlot none) dsUnit none none rfl).2.2.2.2
  rw [hyr, DataSet.get_y_range]
  have hm : (mkPlot none).y_range_margin = 1/2 := rfl
  rw [hm]
  norm_num [dsUnit, listMin, min_def]

/-- Witness for C10 at the one-dataset plot `pW` (x-range [1/2, 5/2]) with
the abstract fitting collaborator that returns offset 3, slope 0. -/
theorem claim_C10_linear_fit_range_witness :
    pW.datasets.getLast? = some dsUnit ∧ -(1/2) < pW.x_range.1 ∧
    ((interactive_linear_fit pW constFit3).toOption.map (fun q => (q.x_range.1, q.y_range.1))
        = some (-(1/2),
            funcEvalScalar (constFit3 { dsUnit with fits := [] }).func (-(1/2))
              ((constFit3 { dsUnit with fits := [] }).pars.map Prod.fst))
      ∧ (bk_show_linear_fit pW constFit3).toOption.map (fun q => (q.1.x_range.1, q.1.y_range.1))
        = some (-(1/2),
            funcEvalScalar (constFit3 { dsUnit with fits := [] }).func (-(1/2))
              ((constFit3 { dsUnit with fits := [] }).pars.map Prod.fst))) := by
  have hlast : pW.datasets.getLast? = some dsUnit := rfl
  have hx : -(1/2) < pW.x_range.1 := by
    have hxr : pW.x_range = dsUnit.get_x_range (mkPlot none).x_range_margin :=
      (add_dataset_empty_spec (mkPlot none) dsUnit none none rfl).2.2.2.1
    rw [hxr, DataSet.get_x_range]
    have hm : (mkPlot none).x_range_margin = 1/2 := rfl
    rw [hm]
    norm_num [dsUnit, listMin, min_def]
  exact ⟨hlast, hx, claim_C10_linear_fit_range.1 pW constFit3 dsUnit hlast hx⟩
